import Mathlib

/-!
Shallow embedding of the confluent-kafka-python serialization layer:
the fixed-width primitive codecs (`confluent_kafka/serialization/serializers.py`)
and the Avro producer/consumer record-level wrappers
(`confluent_kafka/avro/__init__.py`), together with proofs of the
behavioural properties stated in the specification.

Python values are modelled explicitly:
* `bytes` objects are `List Nat` with every element `< 256`;
* Python `None` is `Option.none`;
* exceptions are an inductive `PyError` distinguishing the exception class
  actually raised (`struct.error`, `UnicodeDecodeError`, `SerializerError`,
  `KeySerializerError`, `ValueSerializerError`, `ValueError`);
* a function that can raise returns `Except PyError _`.
-/

namespace ConfluentKafka

/-- The Python exception classes that appear in the embedded code paths.
`serializerError`/`keySerializerError`/`valueSerializerError` correspond to
`confluent_kafka.serialization.error.SerializerError` and its two
field-attributed subclasses; `structError` is `struct.error`;
`unicodeDecodeError` is the builtin `UnicodeDecodeError`;
`valueError` is the builtin `ValueError`. -/
inductive PyError where
  | structError (msg : String)
  | unicodeDecodeError (msg : String)
  | unicodeEncodeError (msg : String)
  | overflowError (msg : String)
  | serializerError (msg : String)
  | keySerializerError (msg : String)
  | valueSerializerError (msg : String)
  | valueError (msg : String)
  deriving DecidableEq, Repr

/-- Recognizer: is this exception a `SerializerError` (the base class only,
as `except SerializerError` in the source also catches the key/value
subclasses we keep separate constructors for them)? -/
def PyError.isSerializerErrorClass : PyError → Bool
  | .serializerError _ => true
  | .keySerializerError _ => true
  | .valueSerializerError _ => true
  | _ => false

/-! ## Big-endian fixed-width integer codec (`struct.pack`/`struct.unpack`)

`struct.pack('>h'|'>i'|'>q', v)` encodes a python int as `w = 2|4|8`
big-endian two's-complement bytes, raising `struct.error` when the value is
out of range; `struct.unpack` requires the buffer length to be exactly `w`
and decodes the signed value. -/

/-- Big-endian base-256 digits of `n`, exactly `w` bytes (most significant
first); `n` is taken modulo `256 ^ w`. -/
def natToBytesBE : (w : Nat) → Nat → List Nat
  | 0, _ => []
  | w + 1, n => natToBytesBE w (n / 256) ++ [n % 256]

/-- Big-endian base-256 value of a byte list. -/
def bytesToNatBE (bs : List Nat) : Nat :=
  bs.foldl (fun acc b => acc * 256 + b) 0

/-- `struct.pack` with a big-endian signed integer format of width `w`
bytes (`'>h'` for `w = 2`, `'>i'` for `w = 4`, `'>q'` for `w = 8`):
raises `struct.error` when the argument is out of range, otherwise yields
the `w`-byte two's-complement big-endian encoding. -/
def structPackInt (w : Nat) (v : Int) : Except PyError (List Nat) :=
  if -(2 ^ (8 * w - 1) : Int) ≤ v ∧ v < (2 ^ (8 * w - 1) : Int) then
    .ok (natToBytesBE w ((v % (2 ^ (8 * w) : Int)).toNat))
  else
    .error (.structError "argument out of range")

/-- `struct.unpack` with a big-endian signed integer format of width `w`
bytes: raises `struct.error` unless the buffer length is exactly `w`,
otherwise decodes the two's-complement value. -/
def structUnpackInt (w : Nat) (bs : List Nat) : Except PyError Int :=
  if bs.length = w then
    .ok (if (bytesToNatBE bs : Int) < (2 ^ (8 * w - 1) : Int) then (bytesToNatBE bs : Int)
         else (bytesToNatBE bs : Int) - (2 ^ (8 * w) : Int))
  else
    .error (.structError "unpack requires a buffer of the exact length")

/-! ## Serialization context

`SerializationContext` and `MessageField` are imported by
`confluent_kafka/avro/__init__.py` from `confluent_kafka.serialization`,
whose defining module is not part of the analysed sources.  Modelled from
the spec: "{ stream name: string, field: enum{KEY, VALUE} }". -/

/-- Modelled from the spec: the KEY/VALUE enum `MessageField` (its defining
module is not among the sources). -/
inductive MessageField where
  | key
  | value
  deriving DecidableEq, Repr

/-- Modelled from the spec: `SerializationContext` — the destination stream
(topic) name and which record field is being processed (its defining module
is not among the sources). -/
structure SerializationContext where
  topic : String
  field : MessageField
  deriving DecidableEq, Repr

/-! ## Primitive codec set (`serializers.py`)

Each serializer's `serialize(datum, ctx)`/`deserialize(data, ctx)` is
translated directly.  A Python float is modelled by its 64-bit IEEE-754 bit
pattern (a `Nat`); `struct.pack('>d', x)` emits the pattern's 8 big-endian
bytes and cannot fail on a float, `struct.pack('>f', x)` first narrows the
double to a 32-bit pattern (an operation of the C runtime, taken here as a
parameter `f32ofF64`) and emits its 4 bytes. -/

/-- `struct.pack('>d', datum)` on a Python float with bit pattern `bits`:
the 8 big-endian bytes of the pattern (never raises on a float). -/
def structPackF64 (bits : Nat) : List Nat :=
  natToBytesBE 8 bits

/-- `DoubleSerializer.serialize(datum, ctx)` (`serializers.py:102`):
`None` short-circuits to `None`; otherwise `struct.pack('>d', datum)`. -/
def DoubleSerializer.serialize (datum : Option Nat) (_ctx : SerializationContext) :
    Except PyError (Option (List Nat)) :=
  match datum with
  | none => .ok none
  | some bits => .ok (some (structPackF64 bits))

/-- `DoubleSerializer.deserialize(data, ctx)` (`serializers.py:123`):
`None` short-circuits; `struct.unpack('>d', data)` needs exactly 8 bytes,
a caught `struct.error` is re-raised as `SerializerError(e)`. -/
def DoubleSerializer.deserialize (data : Option (List Nat)) (_ctx : SerializationContext) :
    Except PyError (Option Nat) :=
  match data with
  | none => .ok none
  | some bs =>
    if bs.length = 8 then .ok (some (bytesToNatBE bs))
    else .error (.serializerError "unpack requires a buffer of 8 bytes")

/-- `FloatSerializer.serialize(datum, ctx)` (`serializers.py:159`):
`None` short-circuits; otherwise `struct.pack('>f', datum)`.  The
double→single narrowing performed by the C runtime is the parameter
`f32ofF64` on bit patterns; `none` models the `OverflowError` CPython
raises when a finite double is too large for single precision
(`"float too large to pack with f format"`) — an `OverflowError` is not a
`struct.error`, so the `except struct.error` clause does not catch it and
it propagates. -/
def FloatSerializer.serialize (f32ofF64 : Nat → Option Nat) (datum : Option Nat)
    (_ctx : SerializationContext) : Except PyError (Option (List Nat)) :=
  match datum with
  | none => .ok none
  | some bits =>
    match f32ofF64 bits with
    | some b32 => .ok (some (natToBytesBE 4 b32))
    | none => .error (.overflowError "float too large to pack with f format")

/-- `FloatSerializer.deserialize(data, ctx)` (`serializers.py:187`):
`None` short-circuits; `struct.unpack('>f', data)` needs exactly 4 bytes
(the widening back to double is the parameter `f64ofF32`); a caught
`struct.error` is re-raised as `SerializerError(e)`. -/
def FloatSerializer.deserialize (f64ofF32 : Nat → Nat) (data : Option (List Nat))
    (_ctx : SerializationContext) : Except PyError (Option Nat) :=
  match data with
  | none => .ok none
  | some bs =>
    if bs.length = 4 then .ok (some (f64ofF32 (bytesToNatBE bs)))
    else .error (.serializerError "unpack requires a buffer of 4 bytes")

/-- `LongSerializer.serialize(datum, ctx)` (`serializers.py:229`):
`None` short-circuits; `struct.pack('>q', datum)`, a caught `struct.error`
is re-raised as `SerializerError(e)`. -/
def LongSerializer.serialize (datum : Option Int) (_ctx : SerializationContext) :
    Except PyError (Option (List Nat)) :=
  match datum with
  | none => .ok none
  | some v =>
    match structPackInt 8 v with
    | .ok bs => .ok (some bs)
    | .error (.structError m) => .error (.serializerError m)
    | .error e => .error e

/-- `LongSerializer.deserialize(data, ctx)` (`serializers.py:249`):
`None` short-circuits; `struct.unpack('>q', data)`, a caught
`struct.error` is re-raised as `SerializerError(e)`. -/
def LongSerializer.deserialize (data : Option (List Nat)) (_ctx : SerializationContext) :
    Except PyError (Option Int) :=
  match data with
  | none => .ok none
  | some bs =>
    match structUnpackInt 8 bs with
    | .ok v => .ok (some v)
    | .error (.structError m) => .error (.serializerError m)
    | .error e => .error e

/-- `IntegerSerializer.serialize(datum, ctx)` (`serializers.py:283`):
`None` short-circuits; `struct.pack('>i', datum)`, a caught `struct.error`
is re-raised as `SerializerError(e.message)` (on Python 2 `e.message` is
the error text, which is what we model; on Python 3 the attribute access
itself would fail). -/
def IntegerSerializer.serialize (datum : Option Int) (_ctx : SerializationContext) :
    Except PyError (Option (List Nat)) :=
  match datum with
  | none => .ok none
  | some v =>
    match structPackInt 4 v with
    | .ok bs => .ok (some bs)
    | .error (.structError m) => .error (.serializerError m)
    | .error e => .error e

/-- `IntegerSerializer.deserialize(data, ctx)` (`serializers.py:303`):
`None` short-circuits; `struct.unpack('>i', data)`, a caught
`struct.error` is re-raised as `SerializerError(e.message)` (Python 2
reading of `e.message`, as for serialize). -/
def IntegerSerializer.deserialize (data : Option (List Nat)) (_ctx : SerializationContext) :
    Except PyError (Option Int) :=
  match data with
  | none => .ok none
  | some bs =>
    match structUnpackInt 4 bs with
    | .ok v => .ok (some v)
    | .error (.structError m) => .error (.serializerError m)
    | .error e => .error e

/-- `ShortSerializer.serialize(datum, ctx)` (`serializers.py:337`):
`None` short-circuits; `struct.pack('>h', datum)`, a caught `struct.error`
is re-raised as `SerializerError(e.message)` (Python 2 reading, as above). -/
def ShortSerializer.serialize (datum : Option Int) (_ctx : SerializationContext) :
    Except PyError (Option (List Nat)) :=
  match datum with
  | none => .ok none
  | some v =>
    match structPackInt 2 v with
    | .ok bs => .ok (some bs)
    | .error (.structError m) => .error (.serializerError m)
    | .error e => .error e

/-- `ShortSerializer.deserialize(data, ctx)` (`serializers.py:358`):
`None` short-circuits; `struct.unpack('>h', data)`, a caught
`struct.error` is re-raised as `SerializerError(e)`. -/
def ShortSerializer.deserialize (data : Option (List Nat)) (_ctx : SerializationContext) :
    Except PyError (Option Int) :=
  match data with
  | none => .ok none
  | some bs =>
    match structUnpackInt 2 bs with
    | .ok v => .ok (some v)
    | .error (.structError m) => .error (.serializerError m)
    | .error e => .error e

/-! ## StringSerializer (`serializers.py:380`)

`StringSerializer` is parameterised by a text codec (`self.codec`); the
codec's `str.encode`/`bytes.decode` are CPython library operations, taken
here as parameters.  A failed `bytes.decode` raises `UnicodeDecodeError`;
the `except struct.error` clause in the source cannot catch it, so it
propagates to the caller unchanged. -/

/-- `StringSerializer.serialize(datum, ctx)` (`serializers.py:401`):
`None` short-circuits; `datum.encode(self.codec)`.  A failed encode raises
`UnicodeEncodeError`, which the `except struct.error` clause does not
catch, so it propagates. -/
def StringSerializer.serialize (encodeFn : String → Except String (List Nat))
    (datum : Option String) (_ctx : SerializationContext) :
    Except PyError (Option (List Nat)) :=
  match datum with
  | none => .ok none
  | some s =>
    match encodeFn s with
    | .ok bs => .ok (some bs)
    | .error m => .error (.unicodeEncodeError m)

/-- `StringSerializer.deserialize(data, ctx)` (`serializers.py:426`):
`None` short-circuits; `data.decode(self.codec)`.  A failed decode raises
`UnicodeDecodeError`, which the `except struct.error` clause does not
catch, so it propagates — `SerializerError` is never raised on this path. -/
def StringSerializer.deserialize (decodeFn : List Nat → Except String String)
    (data : Option (List Nat)) (_ctx : SerializationContext) :
    Except PyError (Option String) :=
  match data with
  | none => .ok none
  | some bs =>
    match decodeFn bs with
    | .ok s => .ok (some s)
    | .error m => .error (.unicodeDecodeError m)

/-! A concrete model of CPython's strict `utf_8` codec (the
`StringSerializer` default), used to instantiate `decodeFn` on concrete
inputs. -/

/-- Is `c` a UTF-8 continuation byte (`0x80..0xBF`)? -/
def utf8Cont (c : Nat) : Bool := 0x80 ≤ c && c ≤ 0xBF

/-- Strict UTF-8 decoding of a byte list, fuel-recursive (`fuel ≥ bs.length`
suffices); mirrors CPython's `bytes.decode('utf_8')` acceptance of exactly
the well-formed, shortest-form, non-surrogate sequences. -/
def utf8DecodeLoop : Nat → List Nat → Except String (List Char)
  | _, [] => .ok []
  | 0, _ :: _ => .error "out of fuel"
  | fuel + 1, b :: rest =>
    if b ≤ 0x7F then
      (utf8DecodeLoop fuel rest).map (fun cs => Char.ofNat b :: cs)
    else if 0xC2 ≤ b && b ≤ 0xDF then
      match rest with
      | c1 :: rest1 =>
        if utf8Cont c1 then
          (utf8DecodeLoop fuel rest1).map
            (fun cs => Char.ofNat ((b - 0xC0) * 0x40 + (c1 - 0x80)) :: cs)
        else .error "invalid continuation byte"
      | [] => .error "unexpected end of data"
    else if 0xE0 ≤ b && b ≤ 0xEF then
      match rest with
      | c1 :: c2 :: rest2 =>
        if ((if b = 0xE0 then 0xA0 else 0x80) ≤ c1
              && c1 ≤ (if b = 0xED then 0x9F else 0xBF)) && utf8Cont c2 then
          (utf8DecodeLoop fuel rest2).map
            (fun cs =>
              Char.ofNat ((b - 0xE0) * 0x1000 + (c1 - 0x80) * 0x40 + (c2 - 0x80)) :: cs)
        else .error "invalid continuation byte"
      | _ => .error "unexpected end of data"
    else if 0xF0 ≤ b && b ≤ 0xF4 then
      match rest with
      | c1 :: c2 :: c3 :: rest3 =>
        if ((if b = 0xF0 then 0x90 else 0x80) ≤ c1
              && c1 ≤ (if b = 0xF4 then 0x8F else 0xBF))
            && utf8Cont c2 && utf8Cont c3 then
          (utf8DecodeLoop fuel rest3).map
            (fun cs =>
              Char.ofNat ((b - 0xF0) * 0x40000 + (c1 - 0x80) * 0x1000
                + (c2 - 0x80) * 0x40 + (c3 - 0x80)) :: cs)
        else .error "invalid continuation byte"
      | _ => .error "unexpected end of data"
    else .error "invalid start byte"

/-- `bytes.decode('utf_8')` under the strict (default) error handler. -/
def utf8Decode (bs : List Nat) : Except String String :=
  (utf8DecodeLoop bs.length bs).map fun cs => String.mk cs

/-! ## Avro wire format and schema-driven serializer

`AvroSerializer` and its `_encode` live in `confluent_kafka.serialization.avro`,
which is not among the analysed sources; the parts of its behaviour the
claims depend on are modelled from the spec (§4.3, §4.4) and marked so.
`Schema` and `Datum` are opaque to every verified code path (they are only
handed to the external registry and encoding engine), so the definitions
are polymorphic in them. -/

/-- The message of a caught Python exception (`str(e)` / `e.message`). -/
def PyError.message : PyError → String
  | .structError m => m
  | .unicodeDecodeError m => m
  | .unicodeEncodeError m => m
  | .overflowError m => m
  | .serializerError m => m
  | .keySerializerError m => m
  | .valueSerializerError m => m
  | .valueError m => m

/-- Modelled from the spec (§4.4 step 4): the registry subject derived from
the serialization context, `<stream>-key` / `<stream>-value`. -/
def subjectName (ctx : SerializationContext) : String :=
  ctx.topic ++ (match ctx.field with | .key => "-key" | .value => "-value")

/-- Modelled from the spec (§4.4 step 2): the configuration-error message
raised when neither a schema override nor a bound default is present. -/
def serializationConfigErrorMsg : String :=
  "no schema available: neither an override nor a bound default schema"

/-- Modelled from the spec (§4.3): `frame(schemaId, body)` =
`[magic byte 0][schema id as 4-byte big-endian signed int][body]`. -/
def frame (schemaId : Int) (body : List Nat) : List Nat :=
  0 :: natToBytesBE 4 ((schemaId % (2 ^ 32 : Int)).toNat) ++ body

/-- Modelled from the spec: `AvroSerializer._encode` (defined in
`confluent_kafka.serialization.avro`, which is not among the sources).
Spec §4.4 steps 2, 4-6: fail with a configuration error when no schema is
present; otherwise resolve/register the schema id under the
context-derived subject, encode the datum against the schema, and frame
the result.  Registry and encoding failures are wrapped into the single
serializer error kind carrying the original cause (§4.4). -/
def avroEncode {Schema Datum : Type}
    (registerSchema : String → Schema → Except String Int)
    (encodeDatum : Schema → Datum → Except String (List Nat))
    (schema : Option Schema) (datum : Datum) (ctx : SerializationContext) :
    Except PyError (List Nat) :=
  match schema with
  | none => .error (.serializerError serializationConfigErrorMsg)
  | some s =>
    match registerSchema (subjectName ctx) s with
    | .error cause => .error (.serializerError cause)
    | .ok sid =>
      match encodeDatum s datum with
      | .error cause => .error (.serializerError cause)
      | .ok body => .ok (frame sid body)

/-- `if self.converter: datum = self.converter.to_dict(datum)`
(`avro/__init__.py:68`): the optional object-to-dict conversion hook. -/
def applyConverter {Datum : Type} (converter : Option (Datum → Datum)) (d : Datum) : Datum :=
  match converter with
  | some toDict => toDict d
  | none => d

/-- `_AvroProducerSerializer.serialize(schema, datum, ctx)`
(`avro/__init__.py:48`): `None` datum short-circuits to `None`;
`if not schema: schema = self.schema` resolves the per-call override
against the bound default; `self.converter.to_dict` is applied when a
converter is bound; then `self._encode(fo, schema, datum, ctx)` writes the
framed payload (modelled by `avroEncode`). -/
def _AvroProducerSerializer.serialize {Schema Datum : Type}
    (registerSchema : String → Schema → Except String Int)
    (encodeDatum : Schema → Datum → Except String (List Nat))
    (selfSchema : Option Schema) (converter : Option (Datum → Datum))
    (schema : Option Schema) (datum : Option Datum) (ctx : SerializationContext) :
    Except PyError (Option (List Nat)) :=
  match datum with
  | none => .ok none
  | some d =>
    let schema := match schema with
      | some s => some s
      | none => selfSchema
    match avroEncode registerSchema encodeDatum schema (applyConverter converter d) ctx with
    | .ok body => .ok (some body)
    | .error e => .error e

/-- Modelled from the spec (§4.3): `unframe(bytes)` fails when the input
is shorter than 5 bytes or its first byte is not the magic value 0;
otherwise yields the 4-byte big-endian signed schema id and the body. -/
def unframe (bs : List Nat) : Except String (Int × List Nat) :=
  if 5 ≤ bs.length then
    if bs.head? = some 0 then
      let n : Int := (bytesToNatBE ((bs.drop 1).take 4) : Int)
      .ok ((if n < 2 ^ 31 then n else n - 2 ^ 32), bs.drop 5)
    else .error "malformed wire payload: unrecognized magic byte"
  else .error "malformed wire payload: message is too small"

/-- Modelled from the spec: `AvroSerializer.deserialize` (defined in
`confluent_kafka.serialization.avro`, which is not among the sources).
Spec §4.4: null input returns null immediately; otherwise unframe,
resolve the writer schema by id, decode the body (optionally projected
through the bound reader schema, folded into `decodeDatum` here); all
failures are wrapped into the serializer error kind. -/
def AvroSerializer.deserialize {Schema Datum : Type}
    (getById : Int → Except String Schema)
    (decodeDatum : Schema → List Nat → Except String Datum)
    (data : Option (List Nat)) : Except PyError (Option Datum) :=
  match data with
  | none => .ok none
  | some bs =>
    match unframe bs with
    | .error cause => .error (.serializerError cause)
    | .ok (sid, body) =>
      match getById sid with
      | .error cause => .error (.serializerError cause)
      | .ok ws =>
        match decodeDatum ws body with
        | .error cause => .error (.serializerError cause)
        | .ok d => .ok (some d)

/-! ## AvroConsumer.poll (`avro/__init__.py:125`) -/

/-- The polled transport record: `message.error()` (truthiness of the
transport-level error), location metadata, and raw/decoded key and value.
The payload type `P` is opaque to `poll` (raw bytes in, decoded objects
out of the black-box deserializers). -/
structure KMessage (P : Type) where
  error : Bool
  topic : String
  partition : Int
  offset : Int
  key : Option P
  value : Option P

/-- The message of the `SerializerError` raised by `AvroConsumer.poll`
(`avro/__init__.py:147`): `"Message deserialization failed for message at
{topic} [{partition}] offset {offset}: {cause}"`. -/
def pollErrorMessage (topic : String) (partition offset : Int) (cause : String) : String :=
  "Message deserialization failed for message at " ++ topic ++ " [" ++
    toString partition ++ "] offset " ++ toString offset ++ ": " ++ cause

/-- `AvroConsumer.poll(timeout)` (`avro/__init__.py:125`): the transport
poll result is `polled`; `None` is returned as `None`; a record whose
`error()` is truthy is returned unmodified; otherwise the value and then
the key are deserialized in place, a caught `SerializerError` being
re-raised with the record's topic, partition and offset embedded in its
message.  The two serializers (`self._value_serializer.deserialize`,
`self._key_serializer.deserialize`) are black boxes here. -/
def AvroConsumer.poll {P : Type}
    (deserializeValue deserializeKey : Option P → Except PyError (Option P))
    (polled : Option (KMessage P)) : Except PyError (Option (KMessage P)) :=
  match polled with
  | none => .ok none
  | some m =>
    if !m.error then
      match deserializeValue m.value with
      | .error e =>
        if e.isSerializerErrorClass then
          .error (.serializerError (pollErrorMessage m.topic m.partition m.offset e.message))
        else .error e
      | .ok v =>
        match deserializeKey m.key with
        | .error e =>
          if e.isSerializerErrorClass then
            .error (.serializerError (pollErrorMessage m.topic m.partition m.offset e.message))
          else .error e
        | .ok k => .ok (some { m with value := v, key := k })
    else .ok (some m)

/-! ## AvroProducer.produce (`avro/__init__.py:196`) -/

/-- The externally observable operations performed by one
`AvroProducer.produce` call, in order: the key-serializer call, the
value-serializer call, and the transport send
(`super().produce(topic, value, key, **kwargs)`). -/
inductive ProduceStep where
  | serializeKey
  | serializeValue
  | transportSend (value key : Option (List Nat))
  deriving DecidableEq, Repr

/-- `AvroProducer.produce(topic, **kwargs)` (`avro/__init__.py:196`),
instrumented with the ordered list of operations it performs.  A KEY
context is built and the key serialized; a caught `SerializerError` is
re-raised as `KeySerializerError(e.message)` and nothing further runs.
The context's field is then flipped to VALUE and the value serialized; a
caught `SerializerError` is re-raised as `ValueSerializerError(e.message)`
and the transport is not called.  Only when both succeed is
`super().produce(topic, value, key)` invoked.  The two serializers are
the producer's `_AvroProducerSerializer` instances, black boxes here. -/
def AvroProducer.produce {Schema P : Type}
    (keySerializer valueSerializer :
      Option Schema → Option P → SerializationContext → Except PyError (Option (List Nat)))
    (topic : String) (key value : Option P) (keySchema valueSchema : Option Schema) :
    Except PyError (Option (List Nat) × Option (List Nat)) × List ProduceStep :=
  let ctx : SerializationContext := ⟨topic, .key⟩
  match keySerializer keySchema key ctx with
  | .error e =>
    if e.isSerializerErrorClass then
      (.error (.keySerializerError e.message), [.serializeKey])
    else (.error e, [.serializeKey])
  | .ok keyBytes =>
    let ctx : SerializationContext := { ctx with field := .value }
    match valueSerializer valueSchema value ctx with
    | .error e =>
      if e.isSerializerErrorClass then
        (.error (.valueSerializerError e.message), [.serializeKey, .serializeValue])
      else (.error e, [.serializeKey, .serializeValue])
    | .ok valueBytes =>
      (.ok (valueBytes, keyBytes),
        [.serializeKey, .serializeValue, .transportSend valueBytes keyBytes])

/-! ## Constructor configuration handling
(`AvroProducer.__init__`, `avro/__init__.py:169`;
`AvroConsumer.__init__`, `avro/__init__.py:101` — the two bodies are
textually identical for this part)

A Python `dict` is an insertion-ordered map with unique keys, modelled as
an association list; `d[k] = v` overwrites in place when the key exists
and appends otherwise, and a dict comprehension builds by repeated
insertion.  Config values are modelled as strings. -/

/-- Association-list model of a Python `dict` with string keys/values. -/
abbrev PyDict := List (String × String)

/-- `d.get(k)` / `d[k]`: the value at the first (unique) occurrence of
key `k`. -/
def dictGet (d : PyDict) (k : String) : Option String :=
  (d.find? (fun p => p.1 == k)).map (·.2)

/-- `d[k] = v`: overwrite the (unique) occurrence in place when the key is
present, append otherwise. -/
def dictInsert (d : PyDict) (k v : String) : PyDict :=
  match d with
  | [] => [(k, v)]
  | p :: rest => if p.1 == k then (k, v) :: rest else p :: dictInsert rest k v

/-- A dict comprehension: the entries inserted left to right into a fresh
dict (later duplicate keys overwrite earlier ones). -/
def dictOfList (l : List (String × String)) : PyDict :=
  l.foldl (fun d p => dictInsert d p.1 p.2) []

/-- Does the char list start with the pattern? (CPython
`str.startswith`, on the underlying character sequences.) -/
def charsStartWith : List Char → List Char → Bool
  | _, [] => true
  | [], _ :: _ => false
  | c :: l, p :: ps => c == p && charsStartWith l ps

/-- CPython `str.replace(old, new)` on character lists: replace every
non-overlapping occurrence of `pat` left to right (modelled for the
non-empty patterns the source uses; `fuel ≥ length` suffices). -/
def charsReplace (pat rep : List Char) : Nat → List Char → List Char
  | _, [] => []
  | 0, l => l
  | fuel + 1, c :: l =>
    if pat.isEmpty = false && charsStartWith (c :: l) pat then
      rep ++ charsReplace pat rep fuel (List.drop (pat.length - 1) l)
    else c :: charsReplace pat rep fuel l

/-- `s.startswith(pre)`. -/
def pyStartsWith (s pre : String) : Bool := charsStartWith s.data pre.data

/-- `s.replace(old, new)`. -/
def pyReplace (s old new : String) : String :=
  ⟨charsReplace old.data new.data s.data.length s.data⟩

/-- The schema-registry prefix the constructors split the config on. -/
def srP : String := "schema.registry"

/-- `sr_conf = {key.replace("schema.registry.", ""): value for key, value
in config.items() if key.startswith("schema.registry")}`
(`avro/__init__.py:173` and `:104`). -/
def srConfOf (config : PyDict) : PyDict :=
  dictOfList ((config.filter (fun p => pyStartsWith p.1 srP)).map
    (fun p => (pyReplace p.1 (srP ++ ".") "", p.2)))

/-- The `SASL_INHERIT` block (`avro/__init__.py:176` and `:107`): when
`sr_conf.get("basic.auth.credentials.source") == 'SASL_INHERIT'`, copy
`sasl.mechanisms`, `sasl.username` and `sasl.password` from the transport
config into `sr_conf`, defaulting each to `''` when absent. -/
def applySaslInherit (config srConf : PyDict) : PyDict :=
  if dictGet srConf "basic.auth.credentials.source" == some "SASL_INHERIT" then
    let d := dictInsert srConf "sasl.mechanisms" ((dictGet config "sasl.mechanisms").getD "")
    let d := dictInsert d "sasl.username" ((dictGet config "sasl.username").getD "")
    dictInsert d "sasl.password" ((dictGet config "sasl.password").getD "")
  else srConf

/-- `ap_conf = {key: value for key, value in config.items() if not
key.startswith("schema.registry")}` (`avro/__init__.py:181` and `:112`). -/
def apConfOf (config : PyDict) : PyDict :=
  dictOfList (config.filter (fun p => !pyStartsWith p.1 srP))

/-- Outcome of `AvroProducer.__init__`/`AvroConsumer.__init__` config
handling: the registry-client config (and whether a
`CachedSchemaRegistryClient` was instantiated from it), and the config
handed to the transport client's own constructor. -/
structure AvroClientInit where
  srConf : PyDict
  builtRegistry : Bool
  apConf : PyDict
  deriving DecidableEq, Repr

/-- The common constructor body (`avro/__init__.py:169`-`194` and
`:101`-`:123`, textually identical for this part): split the config on the
`schema.registry` prefix, apply the `SASL_INHERIT` copy, then either
build a `CachedSchemaRegistryClient(sr_conf)` when no `schema_registry`
instance was passed, or raise
`ValueError("Cannot pass schema_registry along with schema.registry.url
config")` when one was passed and `sr_conf.get("url")` is not `None`. -/
def avroClientInit (config : PyDict) (schemaRegistryPassed : Bool) :
    Except PyError AvroClientInit :=
  let srConf := applySaslInherit config (srConfOf config)
  let apConf := apConfOf config
  if !schemaRegistryPassed then
    .ok { srConf := srConf, builtRegistry := true, apConf := apConf }
  else if (dictGet srConf "url").isSome then
    .error (.valueError "Cannot pass schema_registry along with schema.registry.url config")
  else
    .ok { srConf := srConf, builtRegistry := false, apConf := apConf }

/-- `AvroProducer.__init__` config handling (`avro/__init__.py:169`). -/
def AvroProducer.init (config : PyDict) (schemaRegistryPassed : Bool) :
    Except PyError AvroClientInit :=
  avroClientInit config schemaRegistryPassed

/-- `AvroConsumer.__init__` config handling (`avro/__init__.py:101`). -/
def AvroConsumer.init (config : PyDict) (schemaRegistryPassed : Bool) :
    Except PyError AvroClientInit :=
  avroClientInit config schemaRegistryPassed

/-- A concrete client config exercising the `SASL_INHERIT` path. -/
def saslConfigExample : PyDict :=
  [("schema.registry.basic.auth.credentials.source", "SASL_INHERIT"),
   ("sasl.username", "alice"),
   ("bootstrap.servers", "broker:9092")]

/-- A concrete client config carrying `schema.registry.url`. -/
def urlConfigExample : PyDict :=
  [("schema.registry.url", "http://sr:8081"),
   ("bootstrap.servers", "broker:9092")]

/-! # Theorems

Shared lemmas first (byte-level codec facts, dict facts, the generic
`struct` round-trip), then one theorem per specification claim, each with
its witness where the statement carries hypotheses. -/

theorem natToBytesBE_length (w n : Nat) : (natToBytesBE w n).length = w := by
  induction w generalizing n with
  | zero => rfl
  | succ w ih => simp [natToBytesBE, ih]

theorem bytesToNatBE_append_singleton (bs : List Nat) (b : Nat) :
    bytesToNatBE (bs ++ [b]) = bytesToNatBE bs * 256 + b := by
  simp [bytesToNatBE, List.foldl_append]

theorem bytesToNatBE_natToBytesBE (w n : Nat) (h : n < 256 ^ w) :
    bytesToNatBE (natToBytesBE w n) = n := by
  induction w generalizing n with
  | zero =>
    simp [natToBytesBE, bytesToNatBE]
    omega
  | succ w ih =>
    have hdiv : n / 256 < 256 ^ w := by
      have : n < 256 ^ w * 256 := by
        calc n < 256 ^ (w + 1) := h
        _ = 256 ^ w * 256 := by ring
      omega
    simp [natToBytesBE, bytesToNatBE_append_singleton, ih _ hdiv]
    omega

/-- Generic `struct` round-trip: packing an in-range signed value of width
`w ≥ 1` succeeds with exactly `w` bytes, and unpacking them restores the
value. -/
theorem structPackInt_structUnpackInt (w : Nat) (hw : 1 ≤ w) (v : Int)
    (h1 : -(2 ^ (8 * w - 1) : Int) ≤ v) (h2 : v < (2 ^ (8 * w - 1) : Int)) :
    ∃ bs, structPackInt w v = .ok bs ∧ bs.length = w ∧
      structUnpackInt w bs = .ok v := by
  have h8 : (8 * w - 1) + 1 = 8 * w := by omega
  have hM : ((2 : Int) ^ (8 * w)) = 2 * 2 ^ (8 * w - 1) := by
    calc ((2 : Int) ^ (8 * w)) = 2 ^ ((8 * w - 1) + 1) := by rw [h8]
      _ = 2 ^ (8 * w - 1) * 2 := pow_succ 2 _
      _ = 2 * 2 ^ (8 * w - 1) := by ring
  have hMpos : (0 : Int) < 2 ^ (8 * w - 1) := by positivity
  have hmod : v % ((2 : Int) ^ (8 * w)) = if 0 ≤ v then v else v + 2 ^ (8 * w) := by
    split
    · exact Int.emod_eq_of_lt (by assumption) (by rw [hM]; omega)
    · have hshift : (v + 2 ^ (8 * w)) % ((2 : Int) ^ (8 * w))
          = v % ((2 : Int) ^ (8 * w)) := by simp
      rw [← hshift]
      exact Int.emod_eq_of_lt (by rw [hM]; omega) (by rw [hM]; omega)
  have h256 : (256 : Nat) ^ w = 2 ^ (8 * w) := by
    rw [show (256 : Nat) = 2 ^ 8 from rfl, ← pow_mul]
  have hcast : (((2 ^ (8 * w) : Nat) : Int)) = (2 : Int) ^ (8 * w) := by
    push_cast; ring
  have hnlt : ((v % ((2 : Int) ^ (8 * w))).toNat : Nat) < 256 ^ w := by
    rw [h256]
    have hlt : v % ((2 : Int) ^ (8 * w)) < 2 ^ (8 * w) := by
      rw [hmod]; split <;> omega
    omega
  have hback : (((v % ((2 : Int) ^ (8 * w))).toNat : Int)) = v % ((2 : Int) ^ (8 * w)) := by
    have h0 : 0 ≤ v % ((2 : Int) ^ (8 * w)) := by
      rw [hmod]; split <;> omega
    omega
  refine ⟨natToBytesBE w ((v % ((2 : Int) ^ (8 * w))).toNat), ?_,
    natToBytesBE_length _ _, ?_⟩
  · unfold structPackInt
    rw [if_pos ⟨h1, h2⟩]
  · unfold structUnpackInt
    rw [if_pos (natToBytesBE_length _ _), bytesToNatBE_natToBytesBE _ _ hnlt,
      hback, hmod]
    by_cases h0 : 0 ≤ v
    · rw [if_pos h0, if_pos h2]
    · rw [if_neg h0, if_neg (by rw [hM]; omega)]
      congr 1
      ring

theorem dictGet_dictInsert_self (d : PyDict) (k v : String) :
    dictGet (dictInsert d k v) k = some v := by
  induction d with
  | nil => simp [dictInsert, dictGet, List.find?]
  | cons p rest ih =>
    by_cases hp : (p.1 == k) = true
    · simp [dictInsert, dictGet, hp, List.find?]
    · simp only [Bool.not_eq_true] at hp
      simp only [dictInsert, hp, Bool.false_eq_true, if_false]
      simpa [dictGet, List.find?, hp] using ih

theorem dictGet_dictInsert_ne (d : PyDict) (k v k' : String) (h : (k' == k) = false) :
    dictGet (dictInsert d k v) k' = dictGet d k' := by
  have h' : (k == k') = false := by
    rw [beq_eq_false_iff_ne] at h ⊢
    exact fun hEq => h hEq.symm
  induction d with
  | nil => simp [dictInsert, dictGet, List.find?, h']
  | cons p rest ih =>
    by_cases hp : (p.1 == k) = true
    · have hpk : p.1 = k := by simpa using hp
      have hpk' : (k == k') = false := by
        simpa [BEq.comm] using h
      simp [dictInsert, dictGet, hp, List.find?, hpk, hpk']
    · simp only [Bool.not_eq_true] at hp
      simp only [dictInsert, hp, Bool.false_eq_true, if_false]
      by_cases hq : (p.1 == k') = true
      · simp [dictGet, List.find?, hq]
      · simp only [Bool.not_eq_true] at hq
        simpa [dictGet, List.find?, hq] using ih

theorem dictInsert_of_not_mem (d : PyDict) (k v : String)
    (h : ∀ p ∈ d, (p.1 == k) = false) :
    dictInsert d k v = d ++ [(k, v)] := by
  induction d with
  | nil => rfl
  | cons p rest ih =>
    have hp := h p (List.mem_cons_self p rest)
    simp only [dictInsert, hp, Bool.false_eq_true, if_false, List.cons_append,
      List.cons.injEq, true_and]
    exact ih (fun q hq => h q (List.mem_cons_of_mem p hq))

theorem foldl_dictInsert_eq_append (l : List (String × String)) :
    ∀ d : PyDict, (((d ++ l).map Prod.fst).Nodup) →
      l.foldl (fun d p => dictInsert d p.1 p.2) d = d ++ l := by
  induction l with
  | nil => intro d _; simp
  | cons p l ih =>
    intro d hnd
    have hnotin : ∀ q ∈ d, (q.1 == p.1) = false := by
      intro q hq
      have h1 : q.1 ∈ d.map Prod.fst := List.mem_map_of_mem Prod.fst hq
      have h2 : p.1 ∉ d.map Prod.fst := by
        have := hnd
        rw [List.map_append, List.nodup_append] at this
        intro hmem
        exact absurd (List.mem_cons_self p.1 (l.map Prod.fst))
          (by simpa using this.2.2 hmem)
      rw [beq_eq_false_iff_ne]
      intro hEq
      exact h2 (hEq ▸ h1)
    rw [List.foldl_cons, dictInsert_of_not_mem d p.1 p.2 hnotin]
    have hassoc : (d ++ [(p.1, p.2)]) ++ l = d ++ p :: l := by simp
    have := ih (d ++ [(p.1, p.2)]) (by rw [hassoc]; exact hnd)
    rw [this, hassoc]

theorem dictOfList_eq_self (l : List (String × String))
    (h : (l.map Prod.fst).Nodup) : dictOfList l = l := by
  have := foldl_dictInsert_eq_append l [] (by simpa using h)
  simpa [dictOfList] using this

theorem find?_key_filter (l : List (String × String)) (pred : String → Bool)
    (k : String) (h : pred k = true) :
    (l.filter (fun p => pred p.1)).find? (fun p => p.1 == k)
      = l.find? (fun p => p.1 == k) := by
  induction l with
  | nil => rfl
  | cons p l ih =>
    by_cases hk : (p.1 == k) = true
    · have hpk : p.1 = k := by simpa using hk
      simp [List.filter_cons, hpk, h, List.find?]
    · simp only [Bool.not_eq_true] at hk
      by_cases hp : pred p.1 = true
      · simpa [List.filter_cons, hp, List.find?, hk] using ih
      · simp only [Bool.not_eq_true] at hp
        simpa [List.filter_cons, hp, List.find?, hk] using ih

theorem find?_key_filter_none (l : List (String × String)) (pred : String → Bool)
    (k : String) (h : pred k = false) :
    (l.filter (fun p => pred p.1)).find? (fun p => p.1 == k) = none := by
  rw [List.find?_eq_none]
  intro x hx
  have hpx : pred x.1 = true := by
    have := List.mem_filter.mp hx
    simpa using this.2
  intro hbeq
  have : x.1 = k := by simpa using hbeq
  rw [this, h] at hpx
  exact Bool.false_ne_true hpx

theorem dictGet_of_mem_nodup (l : PyDict) (k v : String)
    (hnd : (l.map Prod.fst).Nodup) (hm : (k, v) ∈ l) :
    dictGet l k = some v := by
  induction l with
  | nil => simp at hm
  | cons p l ih =>
    rcases List.mem_cons.mp hm with rfl | hm'
    · simp [dictGet, List.find?]
    · have hk : k ∈ l.map Prod.fst := by
        simpa using List.mem_map_of_mem Prod.fst hm'
      have hne : (p.1 == k) = false := by
        rw [beq_eq_false_iff_ne]
        intro hEq
        exact (List.nodup_cons.mp (by simpa using hnd)).1 (hEq ▸ hk)
      simp only [dictGet, List.find?, hne]
      exact ih (List.nodup_cons.mp (by simpa using hnd)).2 hm'

theorem dictGet_foldl_insert_none (l : List (String × String)) (k : String)
    (h : ∀ p ∈ l, (p.1 == k) = false) (d : PyDict) :
    dictGet (l.foldl (fun d p => dictInsert d p.1 p.2) d) k = dictGet d k := by
  induction l generalizing d with
  | nil => rfl
  | cons p l ih =>
    rw [List.foldl_cons, ih (fun q hq => h q (List.mem_cons_of_mem p hq))]
    have hpk := h p (List.mem_cons_self p l)
    have hk' : (k == p.1) = false := by
      rw [beq_eq_false_iff_ne] at hpk ⊢
      exact fun hEq => hpk hEq.symm
    exact dictGet_dictInsert_ne d p.1 p.2 k hk'

/-- C3: for every integer representable in the codec's fixed width
(`[-2^15, 2^15)` for `ShortSerializer`, `[-2^31, 2^31)` for
`IntegerSerializer`, `[-2^63, 2^63)` for `LongSerializer`),
deserializing the serialized bytes restores the value. -/
theorem C3_primitive_integer_roundtrip (ctx : SerializationContext) (v : Int) :
    (-(2 ^ 15) ≤ v → v < 2 ^ 15 →
      ∃ bs, ShortSerializer.serialize (some v) ctx = .ok (some bs) ∧
        ShortSerializer.deserialize (some bs) ctx = .ok (some v)) ∧
    (-(2 ^ 31) ≤ v → v < 2 ^ 31 →
      ∃ bs, IntegerSerializer.serialize (some v) ctx = .ok (some bs) ∧
        IntegerSerializer.deserialize (some bs) ctx = .ok (some v)) ∧
    (-(2 ^ 63) ≤ v → v < 2 ^ 63 →
      ∃ bs, LongSerializer.serialize (some v) ctx = .ok (some bs) ∧
        LongSerializer.deserialize (some bs) ctx = .ok (some v)) := by
  refine ⟨fun h1 h2 => ?_, fun h1 h2 => ?_, fun h1 h2 => ?_⟩
  · obtain ⟨bs, hp, _, hu⟩ := structPackInt_structUnpackInt 2 (by norm_num) v
      (by norm_num; omega) (by norm_num; omega)
    exact ⟨bs, by simp [ShortSerializer.serialize, hp],
      by simp [ShortSerializer.deserialize, hu]⟩
  · obtain ⟨bs, hp, _, hu⟩ := structPackInt_structUnpackInt 4 (by norm_num) v
      (by norm_num; omega) (by norm_num; omega)
    exact ⟨bs, by simp [IntegerSerializer.serialize, hp],
      by simp [IntegerSerializer.deserialize, hu]⟩
  · obtain ⟨bs, hp, _, hu⟩ := structPackInt_structUnpackInt 8 (by norm_num) v
      (by norm_num; omega) (by norm_num; omega)
    exact ⟨bs, by simp [LongSerializer.serialize, hp],
      by simp [LongSerializer.deserialize, hu]⟩

/-- Witness for C3 at `v = -12345`. -/
theorem C3_primitive_integer_roundtrip_witness :
    ∃ bs, ShortSerializer.serialize (some (-12345)) ⟨"t", .key⟩ = .ok (some bs) ∧
      ShortSerializer.deserialize (some bs) ⟨"t", .key⟩ = .ok (some (-12345)) :=
  (C3_primitive_integer_roundtrip ⟨"t", .key⟩ (-12345)).1 (by norm_num) (by norm_num)

/-- C8: serialization output length is exact, for every in-range input —
2 bytes for short, 4 for int, 8 for long, 8 for double (any double packs),
and 4 for float whenever the C runtime's double→single narrowing succeeds
(i.e. the input is in single-precision range; outside it `struct.pack`
raises `OverflowError` instead of producing bytes). -/
theorem C8_serialize_exact_widths (ctx : SerializationContext) (v : Int) (bits : Nat)
    (f32ofF64 : Nat → Option Nat) :
    (-(2 ^ 15) ≤ v → v < 2 ^ 15 →
      ∃ bs, ShortSerializer.serialize (some v) ctx = .ok (some bs) ∧ bs.length = 2) ∧
    (-(2 ^ 31) ≤ v → v < 2 ^ 31 →
      ∃ bs, IntegerSerializer.serialize (some v) ctx = .ok (some bs) ∧ bs.length = 4) ∧
    (-(2 ^ 63) ≤ v → v < 2 ^ 63 →
      ∃ bs, LongSerializer.serialize (some v) ctx = .ok (some bs) ∧ bs.length = 8) ∧
    (∀ b32, f32ofF64 bits = some b32 →
      ∃ bs, FloatSerializer.serialize f32ofF64 (some bits) ctx = .ok (some bs) ∧
        bs.length = 4) ∧
    (∃ bs, DoubleSerializer.serialize (some bits) ctx = .ok (some bs) ∧
      bs.length = 8) := by
  refine ⟨fun h1 h2 => ?_, fun h1 h2 => ?_, fun h1 h2 => ?_, fun b32 hb => ?_, ?_⟩
  · obtain ⟨bs, hp, hlen, _⟩ := structPackInt_structUnpackInt 2 (by norm_num) v
      (by norm_num; omega) (by norm_num; omega)
    exact ⟨bs, by simp [ShortSerializer.serialize, hp], hlen⟩
  · obtain ⟨bs, hp, hlen, _⟩ := structPackInt_structUnpackInt 4 (by norm_num) v
      (by norm_num; omega) (by norm_num; omega)
    exact ⟨bs, by simp [IntegerSerializer.serialize, hp], hlen⟩
  · obtain ⟨bs, hp, hlen, _⟩ := structPackInt_structUnpackInt 8 (by norm_num) v
      (by norm_num; omega) (by norm_num; omega)
    exact ⟨bs, by simp [LongSerializer.serialize, hp], hlen⟩
  · exact ⟨natToBytesBE 4 b32, by simp [FloatSerializer.serialize, hb],
      natToBytesBE_length 4 _⟩
  · exact ⟨natToBytesBE 8 bits, rfl, natToBytesBE_length 8 _⟩

/-- Witness for C8 at `v = 1000` (short) and a float whose narrowing
succeeds. -/
theorem C8_serialize_exact_widths_witness :
    (∃ bs, ShortSerializer.serialize (some 1000) ⟨"t", .value⟩ = .ok (some bs) ∧
      bs.length = 2) ∧
    (∃ bs, FloatSerializer.serialize (fun b => some (b % 2 ^ 32))
        (some 1078530011) ⟨"t", .value⟩ = .ok (some bs) ∧ bs.length = 4) :=
  ⟨(C8_serialize_exact_widths ⟨"t", .value⟩ 1000 1078530011
      (fun b => some (b % 2 ^ 32))).1 (by norm_num) (by norm_num),
   (C8_serialize_exact_widths ⟨"t", .value⟩ 1000 1078530011
      (fun b => some (b % 2 ^ 32))).2.2.2.1 (1078530011 % 2 ^ 32) rfl⟩

/-- C4: `None` input short-circuits to `None` output in both directions for
every primitive codec, and for the Avro producer serializer serialization
of `None` returns `None` for every registry/encoding engine (hence without
registry interaction or framing), as does Avro deserialization of `None`. -/
theorem C4_null_short_circuit (ctx : SerializationContext) :
    DoubleSerializer.serialize none ctx = .ok none ∧
    DoubleSerializer.deserialize none ctx = .ok none ∧
    (∀ f32, FloatSerializer.serialize f32 none ctx = .ok none) ∧
    (∀ f64, FloatSerializer.deserialize f64 none ctx = .ok none) ∧
    LongSerializer.serialize none ctx = .ok none ∧
    LongSerializer.deserialize none ctx = .ok none ∧
    IntegerSerializer.serialize none ctx = .ok none ∧
    IntegerSerializer.deserialize none ctx = .ok none ∧
    ShortSerializer.serialize none ctx = .ok none ∧
    ShortSerializer.deserialize none ctx = .ok none ∧
    (∀ enc, StringSerializer.serialize enc none ctx = .ok none) ∧
    (∀ dec, StringSerializer.deserialize dec none ctx = .ok none) ∧
    (∀ (Schema Datum : Type) (reg : String → Schema → Except String Int)
        (enc : Schema → Datum → Except String (List Nat))
        (selfSchema : Option Schema) (conv : Option (Datum → Datum))
        (schema : Option Schema),
      _AvroProducerSerializer.serialize reg enc selfSchema conv schema none ctx
        = .ok none) ∧
    (∀ (Schema Datum : Type) (getById : Int → Except String Schema)
        (dec : Schema → List Nat → Except String Datum),
      AvroSerializer.deserialize getById dec none = .ok (none : Option Datum)) :=
  ⟨rfl, rfl, fun _ => rfl, fun _ => rfl, rfl, rfl, rfl, rfl, rfl, rfl,
    fun _ => rfl, fun _ => rfl, fun _ _ _ _ _ _ _ => rfl, fun _ _ _ _ => rfl⟩

/-- C2 counterexample, a code bug: `StringSerializer.deserialize` with the
default `utf_8` codec on the undecodable input `b"\xff"` raises
`UnicodeDecodeError` — the `except struct.error` clause of the source
cannot catch the decode failure — and not the `SerializerError` that the
claim (and the method's own docstring) promises. -/
theorem C2_string_deserialize_raises_unicode_error :
    StringSerializer.deserialize utf8Decode (some [0xFF]) ⟨"topic", .value⟩
      = .error (.unicodeDecodeError "invalid start byte") ∧
    (PyError.unicodeDecodeError "invalid start byte").isSerializerErrorClass
      = false :=
  ⟨rfl, rfl⟩

/-- C1: in `AvroProducer.produce` the key is serialized first; a key
serializer error raises a key-attributed error with nothing else run; on
key success a value serializer error raises a value-attributed error with
the transport never called; the transport send runs exactly when both
serializations succeed, after them, with the serialized payloads. -/
theorem C1_produce_key_first_no_partial_send {Schema P : Type}
    (kSer vSer : Option Schema → Option P → SerializationContext →
      Except PyError (Option (List Nat)))
    (topic : String) (key value : Option P) (ks vs : Option Schema) :
    (∀ m, kSer ks key ⟨topic, .key⟩ = .error (.serializerError m) →
      AvroProducer.produce kSer vSer topic key value ks vs
        = (.error (.keySerializerError m), [.serializeKey])) ∧
    (∀ kb m, kSer ks key ⟨topic, .key⟩ = .ok kb →
        vSer vs value ⟨topic, .value⟩ = .error (.serializerError m) →
      AvroProducer.produce kSer vSer topic key value ks vs
        = (.error (.valueSerializerError m), [.serializeKey, .serializeValue])) ∧
    (∀ kb vb, kSer ks key ⟨topic, .key⟩ = .ok kb →
        vSer vs value ⟨topic, .value⟩ = .ok vb →
      AvroProducer.produce kSer vSer topic key value ks vs
        = (.ok (vb, kb),
           [.serializeKey, .serializeValue, .transportSend vb kb])) := by
  refine ⟨fun m hm => ?_, fun kb m hk hm => ?_, fun kb vb hk hv => ?_⟩
  · simp [AvroProducer.produce, hm, PyError.isSerializerErrorClass, PyError.message]
  · simp [AvroProducer.produce, hk, hm, PyError.isSerializerErrorClass, PyError.message]
  · simp [AvroProducer.produce, hk, hv]

/-- Witness for C1: a failing key serializer yields the key-attributed
error and only the key-serialization step runs. -/
theorem C1_produce_key_first_no_partial_send_witness :
    @AvroProducer.produce Unit Unit (fun _ _ _ => .error (.serializerError "boom"))
        (fun _ _ _ => .ok none) "t" none none none none
      = (.error (.keySerializerError "boom"), [.serializeKey]) :=
  (@C1_produce_key_first_no_partial_send Unit Unit
      (fun _ _ _ => .error (.serializerError "boom")) (fun _ _ _ => .ok none)
      "t" none none none none).1 "boom" rfl

/-- C5: `AvroConsumer.poll` returns a record carrying a transport-level
error exactly as received — for every pair of deserializers, so neither is
applied and no serializer error can arise — and returns `None` when the
transport returns no record. -/
theorem C5_poll_transport_error_passthrough {P : Type}
    (dv dk : Option P → Except PyError (Option P)) (m : KMessage P)
    (h : m.error = true) :
    AvroConsumer.poll dv dk (some m) = .ok (some m) ∧
    AvroConsumer.poll dv dk none = .ok none :=
  ⟨by simp [AvroConsumer.poll, h], rfl⟩

/-- Witness for C5 on a concrete errored record and always-failing
deserializers. -/
theorem C5_poll_transport_error_passthrough_witness :
    @AvroConsumer.poll Unit (fun _ => .error (.serializerError "boom"))
        (fun _ => .error (.serializerError "boom"))
        (some ⟨true, "t", 0, 1, none, none⟩)
      = .ok (some ⟨true, "t", 0, 1, none, none⟩) :=
  (C5_poll_transport_error_passthrough _ _ _ rfl).1

/-- C6: a serializer-error during value or key deserialization in
`AvroConsumer.poll` raises a single `SerializerError` whose message is
`pollErrorMessage` of the record's topic, partition and offset with the
underlying failure, and that message embeds all four pieces. -/
theorem C6_poll_failure_metadata {P : Type}
    (dv dk : Option P → Except PyError (Option P)) (m : KMessage P)
    (hne : m.error = false) :
    (∀ c, dv m.value = .error (.serializerError c) →
      AvroConsumer.poll dv dk (some m)
        = .error (.serializerError
            (pollErrorMessage m.topic m.partition m.offset c))) ∧
    (∀ v' c, dv m.value = .ok v' → dk m.key = .error (.serializerError c) →
      AvroConsumer.poll dv dk (some m)
        = .error (.serializerError
            (pollErrorMessage m.topic m.partition m.offset c))) ∧
    (∀ (t : String) (p o : Int) (c : String), ∃ s₁ s₂ s₃ s₄,
      pollErrorMessage t p o c
        = s₁ ++ t ++ s₂ ++ toString p ++ s₃ ++ toString o ++ s₄ ++ c) := by
  refine ⟨fun c hc => ?_, fun v' c hv hc => ?_, fun t p o c =>
    ⟨"Message deserialization failed for message at ", " [", "] offset ", ": ",
      rfl⟩⟩
  · simp [AvroConsumer.poll, hne, hc, PyError.isSerializerErrorClass,
      PyError.message]
  · simp [AvroConsumer.poll, hne, hv, hc, PyError.isSerializerErrorClass,
      PyError.message]

/-- Witness for C6 on a concrete record whose value deserialization
fails. -/
theorem C6_poll_failure_metadata_witness :
    @AvroConsumer.poll Unit (fun _ => .error (.serializerError "cause"))
        (fun _ => .ok none) (some ⟨false, "topic", 3, 7, none, none⟩)
      = .error (.serializerError (pollErrorMessage "topic" 3 7 "cause")) :=
  (C6_poll_failure_metadata _ _ _ rfl).1 "cause" rfl

/-- C7: a per-call schema override is the schema used for registration and
encoding, whatever default is bound; with no override the bound default is
used; with neither, serialization fails with the configuration error. -/
theorem C7_effective_schema_resolution {Schema Datum : Type}
    (reg : String → Schema → Except String Int)
    (enc : Schema → Datum → Except String (List Nat))
    (conv : Option (Datum → Datum)) (ctx : SerializationContext) (d : Datum) :
    (∀ (selfSchema : Option Schema) s sid body,
      reg (subjectName ctx) s = .ok sid →
      enc s (applyConverter conv d) = .ok body →
      _AvroProducerSerializer.serialize reg enc selfSchema conv (some s) (some d) ctx
        = .ok (some (frame sid body))) ∧
    (∀ s₀ sid body,
      reg (subjectName ctx) s₀ = .ok sid →
      enc s₀ (applyConverter conv d) = .ok body →
      _AvroProducerSerializer.serialize reg enc (some s₀) conv none (some d) ctx
        = .ok (some (frame sid body))) ∧
    (_AvroProducerSerializer.serialize reg enc none conv none (some d) ctx
      = .error (.serializerError serializationConfigErrorMsg)) := by
  refine ⟨fun selfSchema s sid body hr he => ?_, fun s₀ sid body hr he => ?_, rfl⟩
  · simp [_AvroProducerSerializer.serialize, avroEncode, hr, he]
  · simp [_AvroProducerSerializer.serialize, avroEncode, hr, he]

/-- Witness for C7: with a registry assigning id 1 and an engine emitting
body `[7]`, an override schema `5` is used even though default `99` is
bound. -/
theorem C7_effective_schema_resolution_witness :
    @_AvroProducerSerializer.serialize Nat String (fun _ _ => .ok 1)
        (fun _ _ => .ok [7]) (some 99) none (some 5) (some "datum") ⟨"t", .value⟩
      = .ok (some (frame 1 [7])) :=
  (@C7_effective_schema_resolution Nat String (fun _ _ => .ok 1)
      (fun _ _ => .ok [7]) none ⟨"t", .value⟩ "datum").1 (some 99) 5 1 [7] rfl rfl

/-- C9: for both `AvroProducer` and `AvroConsumer`, when the
prefix-stripped registry config carries
`basic.auth.credentials.source = 'SASL_INHERIT'`, the registry client's
config receives `sasl.mechanisms`, `sasl.username` and `sasl.password`
copied from the transport config, each defaulting to `""` when absent. -/
theorem C9_sasl_inherit (config : PyDict)
    (h : dictGet (srConfOf config) "basic.auth.credentials.source"
      = some "SASL_INHERIT") :
    (∃ initP initC,
      AvroProducer.init config false = .ok initP ∧
      AvroConsumer.init config false = .ok initC ∧
      initC = initP ∧
      dictGet initP.srConf "sasl.mechanisms"
        = some ((dictGet config "sasl.mechanisms").getD "") ∧
      dictGet initP.srConf "sasl.username"
        = some ((dictGet config "sasl.username").getD "") ∧
      dictGet initP.srConf "sasl.password"
        = some ((dictGet config "sasl.password").getD "")) ∧
    (∀ (b : Bool) (r : AvroClientInit),
      AvroProducer.init config b = .ok r ∨ AvroConsumer.init config b = .ok r →
      dictGet r.srConf "sasl.mechanisms"
        = some ((dictGet config "sasl.mechanisms").getD "") ∧
      dictGet r.srConf "sasl.username"
        = some ((dictGet config "sasl.username").getD "") ∧
      dictGet r.srConf "sasl.password"
        = some ((dictGet config "sasl.password").getD "")) := by
  have hsr : applySaslInherit config (srConfOf config)
      = dictInsert (dictInsert (dictInsert (srConfOf config)
          "sasl.mechanisms" ((dictGet config "sasl.mechanisms").getD ""))
          "sasl.username" ((dictGet config "sasl.username").getD ""))
          "sasl.password" ((dictGet config "sasl.password").getD "") := by
    simp [applySaslInherit, h]
  have hmech : dictGet (applySaslInherit config (srConfOf config)) "sasl.mechanisms"
      = some ((dictGet config "sasl.mechanisms").getD "") := by
    rw [hsr, dictGet_dictInsert_ne _ _ _ _ (by decide),
      dictGet_dictInsert_ne _ _ _ _ (by decide), dictGet_dictInsert_self]
  have huser : dictGet (applySaslInherit config (srConfOf config)) "sasl.username"
      = some ((dictGet config "sasl.username").getD "") := by
    rw [hsr, dictGet_dictInsert_ne _ _ _ _ (by decide), dictGet_dictInsert_self]
  have hpass : dictGet (applySaslInherit config (srConfOf config)) "sasl.password"
      = some ((dictGet config "sasl.password").getD "") := by
    rw [hsr, dictGet_dictInsert_self]
  have hconf : ∀ (b : Bool) (r : AvroClientInit),
      avroClientInit config b = .ok r →
      r.srConf = applySaslInherit config (srConfOf config) := by
    intro b r hr
    cases b with
    | false =>
      have h' := Except.ok.inj hr.symm
      rw [h']
    | true =>
      by_cases hurl : (dictGet (applySaslInherit config (srConfOf config)) "url").isSome
      · simp [avroClientInit, hurl] at hr
      · simp only [avroClientInit, Bool.not_true, Bool.false_eq_true, if_false,
          hurl, Except.ok.injEq] at hr
        rw [← hr]
  refine ⟨⟨⟨applySaslInherit config (srConfOf config), true, apConfOf config⟩,
      ⟨applySaslInherit config (srConfOf config), true, apConfOf config⟩,
      rfl, rfl, rfl, hmech, huser, hpass⟩, fun b r hor => ?_⟩
  have hr : avroClientInit config b = .ok r := by
    rcases hor with h' | h' <;> exact h'
  rw [hconf b r hr]
  exact ⟨hmech, huser, hpass⟩

/-- Witness for C9 on a concrete config inheriting SASL credentials. -/
theorem C9_sasl_inherit_witness :
    ∃ initP initC,
      AvroProducer.init saslConfigExample false = .ok initP ∧
      AvroConsumer.init saslConfigExample false = .ok initC ∧
      initC = initP ∧
      dictGet initP.srConf "sasl.mechanisms"
        = some ((dictGet saslConfigExample "sasl.mechanisms").getD "") ∧
      dictGet initP.srConf "sasl.username"
        = some ((dictGet saslConfigExample "sasl.username").getD "") ∧
      dictGet initP.srConf "sasl.password"
        = some ((dictGet saslConfigExample "sasl.password").getD "") :=
  (C9_sasl_inherit saslConfigExample (by decide)).1

/-- C10: for both clients, an explicit registry instance together with a
prefix-stripped `url` key raises the `ValueError`; with no instance a
registry client is built and its config is the prefix-stripped
`SASL_INHERIT`-adjusted dict; every non-prefixed key reaches the transport
config with its value untouched, no prefixed key does, and each prefixed
key's value is found in the registry config under its stripped name. -/
theorem C10_config_split (config : PyDict) :
    (∀ u, dictGet (applySaslInherit config (srConfOf config)) "url" = some u →
      AvroProducer.init config true = .error (.valueError
        "Cannot pass schema_registry along with schema.registry.url config") ∧
      AvroConsumer.init config true = .error (.valueError
        "Cannot pass schema_registry along with schema.registry.url config")) ∧
    (AvroProducer.init config false
        = .ok ⟨applySaslInherit config (srConfOf config), true, apConfOf config⟩ ∧
      AvroConsumer.init config false
        = .ok ⟨applySaslInherit config (srConfOf config), true, apConfOf config⟩) ∧
    ((config.map Prod.fst).Nodup →
      ∀ k, pyStartsWith k srP = false →
        dictGet (apConfOf config) k = dictGet config k) ∧
    (∀ k, pyStartsWith k srP = true → dictGet (apConfOf config) k = none) ∧
    (((config.filter (fun p => pyStartsWith p.1 srP)).map
        (fun p => pyReplace p.1 (srP ++ ".") "")).Nodup →
      ∀ k v, (k, v) ∈ config → pyStartsWith k srP = true →
        dictGet (srConfOf config) (pyReplace k (srP ++ ".") "") = some v) := by
  refine ⟨fun u hu => ?_, ⟨rfl, rfl⟩, fun hnd k hk => ?_, fun k hk => ?_,
    fun hnd k v hm hk => ?_⟩
  · constructor <;>
      simp [AvroProducer.init, AvroConsumer.init, avroClientInit, hu]
  · have hsub : ((config.filter (fun p => !pyStartsWith p.1 srP)).map
        Prod.fst).Sublist (config.map Prod.fst) :=
      (List.filter_sublist config).map Prod.fst
    have hnd' := List.Nodup.sublist hsub hnd
    unfold apConfOf
    rw [dictOfList_eq_self _ hnd']
    unfold dictGet
    rw [find?_key_filter config (fun s => !pyStartsWith s srP) k (by simp [hk])]
  · have hcond : ∀ p ∈ config.filter (fun p => !pyStartsWith p.1 srP),
        (p.1 == k) = false := by
      intro p hp
      have hps : pyStartsWith p.1 srP = false := by
        simpa using (List.mem_filter.mp hp).2
      rw [beq_eq_false_iff_ne]
      intro hEq
      rw [hEq, hk] at hps
      simp at hps
    unfold apConfOf dictOfList
    exact (dictGet_foldl_insert_none _ k hcond []).trans rfl
  · have hkeys : (((config.filter (fun p => pyStartsWith p.1 srP)).map
        (fun p => (pyReplace p.1 (srP ++ ".") "", p.2))).map Prod.fst).Nodup := by
      rw [List.map_map]
      exact hnd
    unfold srConfOf
    rw [dictOfList_eq_self _ hkeys]
    exact dictGet_of_mem_nodup _ _ v hkeys
      (List.mem_map_of_mem _ (List.mem_filter.mpr ⟨hm, by simp [hk]⟩))

/-- Witness for C10 on a concrete config with `schema.registry.url` and a
transport key. -/
theorem C10_config_split_witness :
    (AvroProducer.init urlConfigExample true = .error (.valueError
      "Cannot pass schema_registry along with schema.registry.url config")) ∧
    dictGet (apConfOf urlConfigExample) "bootstrap.servers"
      = dictGet urlConfigExample "bootstrap.servers" ∧
    dictGet (srConfOf urlConfigExample) "url" = some "http://sr:8081" :=
  ⟨((C10_config_split urlConfigExample).1 "http://sr:8081" (by decide)).1,
    (C10_config_split urlConfigExample).2.2.1 (by decide) "bootstrap.servers"
      (by decide),
    (C10_config_split urlConfigExample).2.2.2.2 (by decide) "schema.registry.url"
      "http://sr:8081" (by decide) (by decide)⟩

end ConfluentKafka
